import Mathlib

/-!
Verification of the ai-trivia-quiz client against its specification.

The development shallowly embeds the repository's logic:

* `src/types.ts` — `AnswerKey`, `Difficulty`, `TriviaQuestion`.
* `src/App.tsx` — the controller state (`AppState`) and its event handlers
  (`handleAnswerSelect`, `handleCategorySelect`, `handleDifficultySelect`,
  `resetCategory`, `resetDifficulty`, the timer `useEffect`, and
  `fetchNewQuestion`).  The async `fetchNewQuestion` is split into its
  synchronous prefix (`fetchNewQuestionStart`, everything before `await`)
  and the two continuations that run when the promise settles
  (`fetchSuccess` for the `try` body after the `await` plus the `finally`,
  `fetchFailure` for the `catch` plus the `finally`).
* `src/unnamed/part_000` — `generateTriviaQuestion`, the question-source
  client with its response-shape validation and error-message synthesis.
  A successful transport response is modelled with an already-parsed JSON
  object body (`RawData`) whose property values are JSON values observed
  one level deep (`JsonPrim`, `OptionsShape`); absent keys are `none`.
* `src/service-worker.js` — the `fetch` event listener's routing decision.

Events are collected in `Event` with a single transition function `step`,
and `Reachable` closes the initial state under `step`.
-/

namespace TriviaQuiz

/-- Answer keys `'A' | 'B' | 'C' | 'D'` from `src/types.ts`. -/
inductive AnswerKey where
  | A | B | C | D
  deriving DecidableEq, Repr

/-- Difficulties `'Easy' | 'Medium' | 'Hard'` from `src/types.ts`. -/
inductive Difficulty where
  | Easy | Medium | Hard
  deriving DecidableEq, Repr

/-- The `TriviaQuestion` interface from `src/types.ts`: a prompt, four
option texts and the correct key. -/
structure TriviaQuestion where
  question : String
  optionA : String
  optionB : String
  optionC : String
  optionD : String
  correctAnswer : AnswerKey
  deriving DecidableEq, Repr

/-- `TIME_LIMIT = 15` seconds, `src/App.tsx` line 10. -/
def TIME_LIMIT : Int := 15

/-- The controller's session state: the nine `useState` hooks of the `App`
component in `src/App.tsx` lines 13–21. -/
structure AppState where
  question : Option TriviaQuestion
  score : Nat
  isLoading : Bool
  error : Option String
  selectedAnswer : Option AnswerKey
  isAnswered : Bool
  category : Option String
  difficulty : Option Difficulty
  timeLeft : Int
  deriving DecidableEq, Repr

/-- The initial hook values of `src/App.tsx` lines 13–21. -/
def initState : AppState :=
  { question := none
    score := 0
    isLoading := false
    error := none
    selectedAnswer := none
    isAnswered := false
    category := none
    difficulty := none
    timeLeft := TIME_LIMIT }

/-- Synchronous prefix of `fetchNewQuestion` (`src/App.tsx` lines 23–30):
guarded by `if (!difficulty || !category) return;`, then sets
loading, clears error, selection, answered flag and question, all before
the `await`. -/
def fetchNewQuestionStart (s : AppState) : AppState :=
  if s.difficulty.isNone || s.category.isNone then s
  else
    { s with
      isLoading := true
      error := none
      selectedAnswer := none
      isAnswered := false
      question := none }

/-- Continuation of `fetchNewQuestion` when `generateTriviaQuestion`
resolves (`src/App.tsx` lines 32–34 and the `finally` on line 39):
stores the question, resets the clock to `TIME_LIMIT`, drops loading. -/
def fetchSuccess (q : TriviaQuestion) (s : AppState) : AppState :=
  { s with
    question := some q
    timeLeft := TIME_LIMIT
    isLoading := false }

/-- Continuation of `fetchNewQuestion` when `generateTriviaQuestion`
rejects (`src/App.tsx` lines 35–40): a fixed error message, loading off. -/
def fetchFailure (s : AppState) : AppState :=
  { s with
    error := some "Failed to generate a new question. Please try again."
    isLoading := false }

/-- Guard of the timer `useEffect` (`src/App.tsx` lines 49–52): the effect
returns immediately unless a question is present, unanswered and not
loading. -/
def timerCanRun (s : AppState) : Bool :=
  s.question.isSome && !s.isAnswered && !s.isLoading

/-- The `timeLeft <= 0` branch of the timer effect (`src/App.tsx` lines
54–57): marks the round answered; nothing else changes. -/
def timerTimeout (s : AppState) : AppState :=
  if timerCanRun s = true ∧ s.timeLeft ≤ 0 then { s with isAnswered := true }
  else s

/-- One firing of the interval installed by the timer effect
(`src/App.tsx` lines 59–63): decrements `timeLeft` by one.  The interval
exists only when the effect guard passed and `timeLeft > 0`. -/
def timerTick (s : AppState) : AppState :=
  if timerCanRun s = true ∧ 0 < s.timeLeft then { s with timeLeft := s.timeLeft - 1 }
  else s

/-- `handleAnswerSelect` (`src/App.tsx` lines 67–75): ignore when already
answered; otherwise record the selection, mark answered, and bump the
score when the pick equals `question?.correctAnswer`. -/
def handleAnswerSelect (k : AnswerKey) (s : AppState) : AppState :=
  if s.isAnswered then s
  else
    { s with
      selectedAnswer := some k
      isAnswered := true
      score :=
        if s.question.map TriviaQuestion.correctAnswer = some k then s.score + 1
        else s.score }

/-- `handleCategorySelect` (`src/App.tsx` lines 77–81): store the category,
clear the difficulty, zero the score. -/
def handleCategorySelect (c : String) (s : AppState) : AppState :=
  { s with
    category := some c
    difficulty := none
    score := 0 }

/-- `handleDifficultySelect` (`src/App.tsx` lines 83–86): zero the score,
store the difficulty. -/
def handleDifficultySelect (d : Difficulty) (s : AppState) : AppState :=
  { s with
    score := 0
    difficulty := some d }

/-- `resetCategory` (`src/App.tsx` lines 88–93). -/
def resetCategory (s : AppState) : AppState :=
  { s with
    category := none
    difficulty := none
    question := none
    score := 0 }

/-- `resetDifficulty` (`src/App.tsx` lines 95–99). -/
def resetDifficulty (s : AppState) : AppState :=
  { s with
    difficulty := none
    question := none
    score := 0 }

/-- Every event the controller reacts to: the UI callbacks, the two halves
of a fetch, and the timer callbacks. -/
inductive Event where
  | categorySelect (c : String)
  | difficultySelect (d : Difficulty)
  | fetchStart
  | fetchOk (q : TriviaQuestion)
  | fetchErr
  | answerSelect (k : AnswerKey)
  | timeout
  | tick
  | changeCategory
  | changeDifficulty

/-- Dispatch of one event on the session state. -/
def step (e : Event) (s : AppState) : AppState :=
  match e with
  | .categorySelect c => handleCategorySelect c s
  | .difficultySelect d => handleDifficultySelect d s
  | .fetchStart => fetchNewQuestionStart s
  | .fetchOk q => fetchSuccess q s
  | .fetchErr => fetchFailure s
  | .answerSelect k => handleAnswerSelect k s
  | .timeout => timerTimeout s
  | .tick => timerTick s
  | .changeCategory => resetCategory s
  | .changeDifficulty => resetDifficulty s

/-- States the controller can actually be in: the initial hook values
closed under event dispatch. -/
inductive Reachable : AppState → Prop where
  | init : Reachable initState
  | next (e : Event) {s : AppState} : Reachable s → Reachable (step e s)

/-! Question-source client, `src/unnamed/part_000` lines 135–169
(`generateTriviaQuestion`).  A parsed JSON body is modelled one property
read deep — exactly as far as the validation inspects it.  `Option.none`
at a property stands for an absent key (JavaScript `undefined`). -/

/-- Observation of a JSON value one property deep: the validator reads no
deeper, so arrays and objects are bare markers.  `response.json()` yields
only null, booleans, finite numbers, strings, arrays and objects, and the
code observes a number only through its truthiness, so `Rat` carries it. -/
inductive JsonPrim where
  | null
  | bool (b : Bool)
  | num (q : Rat)
  | str (s : String)
  | arrv
  | objv
  deriving DecidableEq, Repr

/-- The `data.options` value as the validator observes it: `nullv` passes
`typeof === 'object'` but the subsequent property read on it throws;
`objv` is an object — or an array, whose four key reads are all absent —
with the values found at keys `A`–`D` (`none` when absent); `prim` is any
other JSON value, which fails the typeof test before any property read. -/
inductive OptionsShape where
  | nullv
  | objv (A B C D : Option JsonPrim)
  | prim (v : JsonPrim)
  deriving DecidableEq, Repr

/-- A parsed JSON object body as `generateTriviaQuestion` inspects it: the
three properties it reads, each `none` when the key is absent.  A
non-object body is always rejected by the code — its property reads yield
`undefined`, so the `typeof data.question` check fails, or throw for a
`null` body — so bodies are modelled as objects. -/
structure RawData where
  question : Option JsonPrim
  options : Option OptionsShape
  correctAnswer : Option JsonPrim
  deriving DecidableEq, Repr

/-- JavaScript truthiness of a possibly-absent JSON value, as the checks
`data.options.A && …` evaluate it: `undefined` (absent), `null`, `false`,
`0` and the empty string are falsy; every other JSON value — any non-zero
number, `true`, every non-empty string, every array and object — is
truthy. -/
def jsTruthy : Option JsonPrim → Bool
  | none => false
  | some JsonPrim.null => false
  | some (JsonPrim.bool b) => b
  | some (JsonPrim.num q) => q ≠ 0
  | some (JsonPrim.str s) => s ≠ ""
  | some JsonPrim.arrv => true
  | some JsonPrim.objv => true

/-- Decoding of `['A','B','C','D'].includes(data.correctAnswer)` together
with the `as TriviaQuestion` cast of the correct key. -/
def keyOfString : String → Option AnswerKey
  | "A" => some AnswerKey.A
  | "B" => some AnswerKey.B
  | "C" => some AnswerKey.C
  | "D" => some AnswerKey.D
  | _ => none

/-- The runtime value produced by the `data as TriviaQuestion` cast
(`src/unnamed/part_000` line 159): the cast converts nothing, so the four
option entries keep whatever truthy JSON values the body carried, even
though the TypeScript type declares them as strings. -/
structure CastQuestion where
  question : String
  optionA : JsonPrim
  optionB : JsonPrim
  optionC : JsonPrim
  optionD : JsonPrim
  correctAnswer : AnswerKey
  deriving DecidableEq, Repr

/-- Outcome of the response-shape check of `src/unnamed/part_000` lines
153–162: `accepted` is the `data as TriviaQuestion` cast; `badShape` is
the `else` branch throwing the unexpected-format error; `nullOptions` is
the case `data.options === null`, where `typeof data.options === 'object'`
still passes and the read `data.options.A` throws a TypeError instead. -/
inductive ValidateOutcome where
  | accepted (q : CastQuestion)
  | badShape
  | nullOptions
  deriving DecidableEq, Repr

/-- Shape validation of `src/unnamed/part_000` lines 153–162, in the
source's short-circuit order:
`typeof data.question === 'string' && typeof data.options === 'object' &&
data.options.A && data.options.B && data.options.C && data.options.D &&
['A','B','C','D'].includes(data.correctAnswer)`.  A failing question
check short-circuits before `data.options` is touched, so a `null`
options value throws only when the question is a string. -/
def validateResponse (d : RawData) : ValidateOutcome :=
  match d.question with
  | some (JsonPrim.str qText) =>
    match d.options with
    | some (OptionsShape.objv A B C D) =>
      if jsTruthy A && jsTruthy B && jsTruthy C && jsTruthy D then
        match d.correctAnswer with
        | some (JsonPrim.str ca) =>
          match keyOfString ca with
          | some k =>
            ValidateOutcome.accepted
              { question := qText
                optionA := A.getD JsonPrim.null
                optionB := B.getD JsonPrim.null
                optionC := C.getD JsonPrim.null
                optionD := D.getD JsonPrim.null
                correctAnswer := k }
          | none => ValidateOutcome.badShape
        | _ => ValidateOutcome.badShape
      else ValidateOutcome.badShape
    | some OptionsShape.nullv => ValidateOutcome.nullOptions
    | _ => ValidateOutcome.badShape
  | _ => ValidateOutcome.badShape

/-- A transport response as seen by `generateTriviaQuestion`: `ok` and
`status` from the fetch response, `errorField` the `errorData?.error`
extracted from a non-ok body (`none` when the body is unparsable or has
no `error` key), `body` the parsed body of an ok response. -/
structure TransportResponse where
  ok : Bool
  status : Nat
  errorField : Option String
  body : RawData
  deriving DecidableEq, Repr

/-- Message synthesis of `src/unnamed/part_000` line 147:
`errorData?.error || Server responded with status N` — the server text is
used when present and truthy, otherwise the status fallback. -/
def serverMessage (r : TransportResponse) : String :=
  match r.errorField with
  | some msg => if msg ≠ "" then msg else "Server responded with status " ++ toString r.status
  | none => "Server responded with status " ++ toString r.status

/-- Message of the TypeError thrown by reading `data.options.A` when
`data.options` is `null`.  The text is supplied by the JavaScript engine
(this is V8's wording); no theorem relies on the text, only on this path
being a failure. -/
def nullOptionsErrorMessage : String :=
  "Cannot read properties of null (reading 'A')"

/-- The question-source client (`src/unnamed/part_000` lines 135–169).
Every failure thrown inside the `try` is re-thrown by the `catch` with its
message prefixed by `Could not load question. `; a successful, well-shaped
response yields the cast question.  (The model assumes an ok body parses
as JSON; claims do not exercise an unparsable ok body.) -/
def generateTriviaQuestion (r : TransportResponse) : Except String CastQuestion :=
  if r.ok then
    match validateResponse r.body with
    | ValidateOutcome.accepted q => Except.ok q
    | ValidateOutcome.badShape =>
      Except.error "Could not load question. The API returned data in an unexpected format."
    | ValidateOutcome.nullOptions =>
      Except.error ("Could not load question. " ++ nullOptionsErrorMessage)
  else
    Except.error ("Could not load question. " ++ serverMessage r)

/-! Service worker, `src/service-worker.js` lines 23–55: the routing
decision of the `fetch` event listener. -/

/-- Occurrence of `p` as a contiguous run inside the second list; used to
model JavaScript's `String.prototype.includes`. -/
def hasSubstr (p : List Char) : List Char → Bool
  | [] => p.isPrefixOf ([] : List Char)
  | c :: t => p.isPrefixOf (c :: t) || hasSubstr p t

/-- `event.request.url.includes('/api/')`. -/
def urlHasApi (url : String) : Bool :=
  hasSubstr "/api/".toList url.toList

/-- How the service worker answers one fetch event. -/
inductive SWDecision where
  | notHandled
  | networkOnly
  | serveFromCache
  | networkThenCache
  | networkNoStore
  deriving DecidableEq, Repr

/-- Routing of `src/service-worker.js` lines 23–55: non-GET requests are
not handled; API URLs are answered with a direct `fetch`; otherwise the
cache is consulted, a hit is served, and a miss is fetched and stored
only when the network response has status 200. -/
def handleFetch (method url : String) (cacheHit : Bool) (netStatus : Nat) : SWDecision :=
  if method ≠ "GET" then SWDecision.notHandled
  else if urlHasApi url then SWDecision.networkOnly
  else if cacheHit then SWDecision.serveFromCache
  else if netStatus = 200 then SWDecision.networkThenCache
  else SWDecision.networkNoStore

/-- The handler performs a `caches.match` lookup exactly on non-API GET
requests (`src/service-worker.js` lines 25–36). -/
def cacheLookup (method url : String) : Bool :=
  method == "GET" && !urlHasApi url

/-- The handler performs a `cache.put` store exactly on a non-API GET
cache miss whose network response has status 200
(`src/service-worker.js` lines 43–50). -/
def cacheStore (method url : String) (cacheHit : Bool) (netStatus : Nat) : Bool :=
  cacheLookup method url && !cacheHit && netStatus == 200

/-! Derived notions and concrete fixtures used by the theorems. -/

/-- The three terminal outcomes of a round as the `QuizCard` renders them
(`src/unnamed/part_000` lines 29–48 and 66–74): no selection, the correct
key selected, or a wrong key selected. -/
inductive Outcome where
  | timedOut
  | answeredCorrect
  | answeredIncorrect
  deriving DecidableEq, Repr

/-- Classification of a terminal round from the selection and the
question's correct key, mirroring `selectedAnswer === correctAnswer` in
the card. -/
def roundOutcome (q : TriviaQuestion) : Option AnswerKey → Outcome
  | none => Outcome.timedOut
  | some k =>
    if k = q.correctAnswer then Outcome.answeredCorrect else Outcome.answeredIncorrect

/-- Invariant relating the selection to the answered flag. -/
def SelInv (s : AppState) : Prop :=
  s.selectedAnswer.isSome = true → s.isAnswered = true

/-- The spec's sample question (`2+2?` with correct key `B`). -/
def qDemo : TriviaQuestion :=
  { question := "2+2?", optionA := "3", optionB := "4", optionC := "5", optionD := "6"
    correctAnswer := AnswerKey.B }

/-- Payload of a first, slow fetch. -/
def qFirst : TriviaQuestion :=
  { question := "Q1", optionA := "a", optionB := "b", optionC := "c", optionD := "d"
    correctAnswer := AnswerKey.A }

/-- Payload of a second, fast fetch. -/
def qSecond : TriviaQuestion :=
  { question := "Q2", optionA := "a", optionB := "b", optionC := "c", optionD := "d"
    correctAnswer := AnswerKey.B }

/-- State after picking category `Science` and difficulty `Easy` from the
initial state. -/
def sReady : AppState :=
  handleDifficultySelect Difficulty.Easy (handleCategorySelect "Science" initState)

/-- State of a finished round: a fetched question answered with key `A`. -/
def sDemoAnswered : AppState :=
  handleAnswerSelect AnswerKey.A (fetchSuccess qDemo (fetchNewQuestionStart sReady))

/-- State in which the category was reset while a fetch was in flight and
the stale fetch then resolved: the category picker is showing yet a
question object sits in the state. -/
def sStaleQuestion : AppState :=
  fetchSuccess qDemo (resetCategory (fetchNewQuestionStart sReady))

/-- A parsed response body whose prompt is the empty string but whose
options and correct key are well-formed. -/
def rawEmptyPrompt : RawData :=
  { question := some (JsonPrim.str "")
    options := some (OptionsShape.objv
      (some (JsonPrim.str "3")) (some (JsonPrim.str "4"))
      (some (JsonPrim.str "5")) (some (JsonPrim.str "6")))
    correctAnswer := some (JsonPrim.str "B") }

/-- A parsed response body whose four option entries are the numbers 1–4
— truthy JSON values that are not strings. -/
def rawNumericOptions : RawData :=
  { question := some (JsonPrim.str "2+2?")
    options := some (OptionsShape.objv
      (some (JsonPrim.num 1)) (some (JsonPrim.num 2))
      (some (JsonPrim.num 3)) (some (JsonPrim.num 4)))
    correctAnswer := some (JsonPrim.str "A") }

/-- A parsed response body whose options value is JSON `null`. -/
def rawNullOptions : RawData :=
  { question := some (JsonPrim.str "x")
    options := some OptionsShape.nullv
    correctAnswer := some (JsonPrim.str "A") }

/-- A transport failure: status 500 with body `{error:"rate limited"}`. -/
def r500 : TransportResponse :=
  { ok := false, status := 500, errorField := some "rate limited", body := rawEmptyPrompt }

/-- A parsed body that lacks the options key. -/
def rawMissingOptions : RawData :=
  { question := some (JsonPrim.str "x"), options := none
    correctAnswer := some (JsonPrim.str "A") }

/-- An ok transport response carrying a malformed body. -/
def rBadShape : TransportResponse :=
  { ok := true, status := 200, errorField := none, body := rawMissingOptions }

/-- State showing a fetched question, awaiting the user's answer. -/
def sAwaiting : AppState :=
  fetchSuccess qDemo (fetchNewQuestionStart sReady)

/-- The awaiting state after the countdown ran all the way down. -/
def sTimedOut : AppState :=
  (step Event.tick)^[15] sAwaiting

/-! Helper lemmas shared by the claim theorems. -/

lemma selInv_init : SelInv initState := by
  intro h
  simp [initState] at h

lemma selInv_step (e : Event) (s : AppState) (h : SelInv s) : SelInv (step e s) := by
  unfold SelInv at h ⊢
  cases e <;>
    simp only [step, handleCategorySelect, handleDifficultySelect, fetchNewQuestionStart,
      fetchSuccess, fetchFailure, handleAnswerSelect, timerTimeout, timerTick,
      resetCategory, resetDifficulty] <;>
    first
      | exact h
      | (split <;> first | exact h | simp_all)

lemma reachable_selInv {s : AppState} (h : Reachable s) : SelInv s := by
  induction h with
  | init => exact selInv_init
  | next e hr ih => exact selInv_step e _ ih

lemma handleAnswerSelect_of_answered (k : AnswerKey) {s : AppState}
    (h : s.isAnswered = true) : handleAnswerSelect k s = s := by
  simp [handleAnswerSelect, h]

lemma reachable_sReady : Reachable sReady :=
  Reachable.next (Event.difficultySelect Difficulty.Easy)
    (Reachable.next (Event.categorySelect "Science") Reachable.init)

lemma reachable_sAwaiting : Reachable sAwaiting :=
  Reachable.next (Event.fetchOk qDemo)
    (Reachable.next Event.fetchStart reachable_sReady)

lemma reachable_sDemoAnswered : Reachable sDemoAnswered :=
  Reachable.next (Event.answerSelect AnswerKey.A) reachable_sAwaiting

lemma reachable_sStaleQuestion : Reachable sStaleQuestion :=
  Reachable.next (Event.fetchOk qDemo)
    (Reachable.next Event.changeCategory
      (Reachable.next Event.fetchStart reachable_sReady))

lemma reachable_iterate_tick (n : Nat) {s : AppState} (h : Reachable s) :
    Reachable ((step Event.tick)^[n] s) := by
  induction n with
  | zero => exact h
  | succ n ih =>
    rw [Function.iterate_succ_apply']
    exact Reachable.next Event.tick ih

lemma reachable_sTimedOut : Reachable sTimedOut :=
  reachable_iterate_tick 15 reachable_sAwaiting

lemma keyOfString_isSome (ca : String) :
    (keyOfString ca).isSome = true ↔ (ca = "A" ∨ ca = "B" ∨ ca = "C" ∨ ca = "D") := by
  unfold keyOfString
  split <;> simp_all

/-! Claim theorems. -/

/-- C1: on an unanswered round with a current question, `handleAnswerSelect k`
records the selection, marks the round answered, and increments the score by
exactly one iff `k` equals the question's `correctAnswer` (never a timeout
outcome); timer expiry on a reachable unanswered state marks the round
answered with no selection and an unchanged score — a timeout outcome. -/
theorem score_increment_iff_correct :
    (∀ (s : AppState) (q : TriviaQuestion) (k : AnswerKey),
      s.isAnswered = false → s.question = some q →
      (handleAnswerSelect k s).selectedAnswer = some k ∧
      (handleAnswerSelect k s).isAnswered = true ∧
      ((handleAnswerSelect k s).score = s.score + 1 ↔ k = q.correctAnswer) ∧
      (k ≠ q.correctAnswer → (handleAnswerSelect k s).score = s.score) ∧
      roundOutcome q (handleAnswerSelect k s).selectedAnswer ≠ Outcome.timedOut ∧
      ((handleAnswerSelect k s).score = s.score + 1 ↔
        roundOutcome q (handleAnswerSelect k s).selectedAnswer = Outcome.answeredCorrect)) ∧
    (∀ (s : AppState) (q : TriviaQuestion),
      Reachable s → s.isAnswered = false → s.question = some q →
      s.isLoading = false → s.timeLeft ≤ 0 →
      (timerTimeout s).isAnswered = true ∧
      (timerTimeout s).selectedAnswer = none ∧
      (timerTimeout s).score = s.score ∧
      roundOutcome q (timerTimeout s).selectedAnswer = Outcome.timedOut) := by
  constructor
  · intro s q k hans hq
    by_cases hk : k = q.correctAnswer
    · simp [handleAnswerSelect, hans, hq, hk, roundOutcome]
    · have hk' : ¬ q.correctAnswer = k := fun h => hk h.symm
      simp [handleAnswerSelect, hans, hq, hk, hk', roundOutcome]
  · intro s q hr hans hq hload htime
    have hsel : s.selectedAnswer = none := by
      cases hsa : s.selectedAnswer with
      | none => rfl
      | some k =>
        have h2 := reachable_selInv hr (by simp [hsa])
        rw [hans] at h2
        exact absurd h2 (by simp)
    have hcan : timerCanRun s = true := by
      simp [timerCanRun, hq, hans, hload]
    simp [timerTimeout, hcan, htime, hsel, roundOutcome]

/-- C1 witness: answering `B` on the sample question scores one point, and
the timed-out state is marked answered with no selection and score 0. -/
theorem score_increment_iff_correct_witness :
    (handleAnswerSelect AnswerKey.B sAwaiting).score = sAwaiting.score + 1 ∧
    (timerTimeout sTimedOut).isAnswered = true ∧
    (timerTimeout sTimedOut).selectedAnswer = none ∧
    (timerTimeout sTimedOut).score = sTimedOut.score := by
  refine ⟨?_, ?_, ?_, ?_⟩
  · exact ((score_increment_iff_correct.1 sAwaiting qDemo AnswerKey.B rfl rfl).2.2.1).mpr rfl
  · exact (score_increment_iff_correct.2 sTimedOut qDemo reachable_sTimedOut rfl rfl rfl
      (by decide)).1
  · exact (score_increment_iff_correct.2 sTimedOut qDemo reachable_sTimedOut rfl rfl rfl
      (by decide)).2.1
  · exact (score_increment_iff_correct.2 sTimedOut qDemo reachable_sTimedOut rfl rfl rfl
      (by decide)).2.2.1

/-- C4: answer submission is idempotent — on an already-answered round,
`handleAnswerSelect` is the identity on the whole session state; the first
submission on an unanswered round records the pick and marks the round
answered, and any further submission leaves the state exactly as the first
left it. -/
theorem answer_submission_idempotent :
    ∀ (s : AppState) (k k2 : AnswerKey),
      (s.isAnswered = true → handleAnswerSelect k s = s) ∧
      (s.isAnswered = false →
        (handleAnswerSelect k s).selectedAnswer = some k ∧
        (handleAnswerSelect k s).isAnswered = true ∧
        handleAnswerSelect k2 (handleAnswerSelect k s) = handleAnswerSelect k s) := by
  intro s k k2
  constructor
  · intro h
    exact handleAnswerSelect_of_answered k h
  · intro h
    have hX : (handleAnswerSelect k s).isAnswered = true := by
      simp [handleAnswerSelect, h]
    exact ⟨by simp [handleAnswerSelect, h], hX, handleAnswerSelect_of_answered k2 hX⟩

/-- C4 witness: a second click with a different key after answering `A`
changes nothing. -/
theorem answer_submission_idempotent_witness :
    handleAnswerSelect AnswerKey.C (handleAnswerSelect AnswerKey.A sAwaiting) =
      handleAnswerSelect AnswerKey.A sAwaiting :=
  ((answer_submission_idempotent sAwaiting AnswerKey.A AnswerKey.C).2 rfl).2.2

/-- C5: whenever the round is answered, the question absent, or a load in
progress, the timer effect installs no interval and fires no expiry: both
timer events leave the state — in particular `timeLeft` — unchanged. -/
theorem timer_frozen_after_answer :
    ∀ s : AppState, s.isAnswered = true ∨ s.question = none ∨ s.isLoading = true →
      timerTick s = s ∧ timerTimeout s = s ∧ (step Event.tick s).timeLeft = s.timeLeft := by
  intro s h
  have hcan : timerCanRun s = false := by
    rcases h with h | h | h <;> simp [timerCanRun, h]
  refine ⟨?_, ?_, ?_⟩ <;> simp [timerTick, timerTimeout, step, hcan]

/-- C5 witness: ticking the answered sample state changes nothing. -/
theorem timer_frozen_after_answer_witness :
    timerTick sDemoAnswered = sDemoAnswered ∧
    (step Event.tick sDemoAnswered).timeLeft = sDemoAnswered.timeLeft := by
  refine ⟨(timer_frozen_after_answer sDemoAnswered (Or.inl ?_)).1,
    (timer_frozen_after_answer sDemoAnswered (Or.inl ?_)).2.2⟩ <;> rfl

/-- C10 counterexample: on the reachable state of a finished round,
`resetDifficulty` and `resetCategory` clear neither the selection nor the
answered flag, contradicting the claim that every fetch/reset transition
clears them together. -/
theorem reset_keeps_selection_counterexample :
    (resetDifficulty sDemoAnswered).selectedAnswer = some AnswerKey.A ∧
    (resetDifficulty sDemoAnswered).isAnswered = true ∧
    (resetCategory sDemoAnswered).selectedAnswer = some AnswerKey.A ∧
    (resetCategory sDemoAnswered).isAnswered = true :=
  ⟨rfl, rfl, rfl, rfl⟩

/-- C10 (amended): in every reachable state a present selection implies the
answered flag; a fetch start clears selection and answered flag together,
while the reset transitions leave both unchanged — which still preserves
the invariant. -/
theorem selection_implies_answered_invariant :
    (∀ s : AppState, Reachable s → s.selectedAnswer.isSome = true → s.isAnswered = true) ∧
    (∀ s : AppState, s.difficulty.isNone = false → s.category.isNone = false →
      (fetchNewQuestionStart s).selectedAnswer = none ∧
      (fetchNewQuestionStart s).isAnswered = false) ∧
    (∀ s : AppState,
      (resetCategory s).selectedAnswer = s.selectedAnswer ∧
      (resetCategory s).isAnswered = s.isAnswered ∧
      (resetDifficulty s).selectedAnswer = s.selectedAnswer ∧
      (resetDifficulty s).isAnswered = s.isAnswered) := by
  refine ⟨fun s hr => reachable_selInv hr, ?_, ?_⟩
  · intro s h1 h2
    constructor <;> simp [fetchNewQuestionStart, h1, h2]
  · intro s
    exact ⟨rfl, rfl, rfl, rfl⟩

/-- C10 witness: the finished round carries a selection and is answered,
and starting a fetch from the ready state leaves no selection. -/
theorem selection_implies_answered_invariant_witness :
    sDemoAnswered.isAnswered = true ∧
    (fetchNewQuestionStart sReady).selectedAnswer = none :=
  ⟨selection_implies_answered_invariant.1 sDemoAnswered reachable_sDemoAnswered rfl,
    (selection_implies_answered_invariant.2.1 sReady rfl rfl).1⟩

/-- C2 counterexample: on the reachable state where a stale fetch resolved
after the category was reset, `handleCategorySelect` stores the category,
clears the difficulty and zeroes the score, but does not clear the current
question — the claim says it does. -/
theorem category_select_keeps_question_counterexample :
    Reachable sStaleQuestion ∧
    sStaleQuestion.question = some qDemo ∧
    (handleCategorySelect "History" sStaleQuestion).question = some qDemo ∧
    (handleCategorySelect "History" sStaleQuestion).question ≠ none ∧
    (handleCategorySelect "History" sStaleQuestion).category = some "History" ∧
    (handleCategorySelect "History" sStaleQuestion).difficulty = none ∧
    (handleCategorySelect "History" sStaleQuestion).score = 0 :=
  ⟨reachable_sStaleQuestion, rfl, rfl, by decide, rfl, rfl, rfl⟩

/-- C2 (amended): category selection sets the category, clears the
difficulty and resets the score to 0 while leaving the question in place;
difficulty selection resets the score to 0 before the fetch begins; the
question, selection and answered flag are cleared when the fetch starts
(which does not touch the score), and the explicit reset actions do clear
the question and score. -/
theorem select_resets_score :
    (∀ (s : AppState) (c : String),
      handleCategorySelect c s =
        { s with category := some c, difficulty := none, score := 0 }) ∧
    (∀ (s : AppState) (d : Difficulty),
      handleDifficultySelect d s = { s with score := 0, difficulty := some d }) ∧
    (∀ s : AppState, s.difficulty.isNone = false → s.category.isNone = false →
      (fetchNewQuestionStart s).question = none ∧
      (fetchNewQuestionStart s).selectedAnswer = none ∧
      (fetchNewQuestionStart s).isAnswered = false ∧
      (fetchNewQuestionStart s).score = s.score) ∧
    (∀ s : AppState,
      (resetCategory s).question = none ∧ (resetCategory s).score = 0 ∧
      (resetDifficulty s).question = none ∧ (resetDifficulty s).score = 0) := by
  refine ⟨fun s c => rfl, fun s d => rfl, ?_, fun s => ⟨rfl, rfl, rfl, rfl⟩⟩
  intro s h1 h2
  refine ⟨?_, ?_, ?_, ?_⟩ <;> simp [fetchNewQuestionStart, h1, h2]

/-- C2 witness: score is 0 after category and difficulty selection on the
finished round, and the subsequent fetch start clears the question. -/
theorem select_resets_score_witness :
    (handleCategorySelect "History" sDemoAnswered).score = 0 ∧
    (handleDifficultySelect Difficulty.Hard sDemoAnswered).score = 0 ∧
    (fetchNewQuestionStart sReady).question = none := by
  refine ⟨?_, ?_, (select_resets_score.2.2.1 sReady rfl rfl).1⟩
  · rw [select_resets_score.1 sDemoAnswered "History"]
  · rw [select_resets_score.2.1 sDemoAnswered Difficulty.Hard]

/-- C3: a fetch start (guarded by a selected difficulty and category) sets
loading and clears the error, question, selection and answered flag before
the `await`; when the fetch then resolves, the question is set, the
selection stays absent, the round stays unanswered, the clock is reset to
the full 15 seconds and loading ends. -/
theorem fetch_clears_before_await :
    ∀ (s : AppState) (q : TriviaQuestion),
      s.difficulty.isNone = false → s.category.isNone = false →
      ((fetchNewQuestionStart s).isLoading = true ∧
       (fetchNewQuestionStart s).error = none ∧
       (fetchNewQuestionStart s).question = none ∧
       (fetchNewQuestionStart s).selectedAnswer = none ∧
       (fetchNewQuestionStart s).isAnswered = false) ∧
      ((fetchSuccess q (fetchNewQuestionStart s)).question = some q ∧
       (fetchSuccess q (fetchNewQuestionStart s)).selectedAnswer = none ∧
       (fetchSuccess q (fetchNewQuestionStart s)).isAnswered = false ∧
       (fetchSuccess q (fetchNewQuestionStart s)).timeLeft = TIME_LIMIT ∧
       TIME_LIMIT = 15 ∧
       (fetchSuccess q (fetchNewQuestionStart s)).isLoading = false) := by
  intro s q h1 h2
  refine ⟨⟨?_, ?_, ?_, ?_, ?_⟩, ⟨?_, ?_, ?_, ?_, rfl, ?_⟩⟩ <;>
    simp [fetchNewQuestionStart, fetchSuccess, h1, h2]

/-- C3 witness: starting a fetch from the ready state and resolving it with
the sample question yields a fresh awaiting round with a full clock. -/
theorem fetch_clears_before_await_witness :
    (fetchNewQuestionStart sReady).isLoading = true ∧
    (fetchSuccess qDemo (fetchNewQuestionStart sReady)).question = some qDemo ∧
    (fetchSuccess qDemo (fetchNewQuestionStart sReady)).timeLeft = TIME_LIMIT :=
  ⟨(fetch_clears_before_await sReady qDemo rfl rfl).1.1,
    (fetch_clears_before_await sReady qDemo rfl rfl).2.1,
    (fetch_clears_before_await sReady qDemo rfl rfl).2.2.2.2.1⟩

/-- C8: the controller has no generation guard, so with two overlapping
fetches the later completion wins regardless of issue order — issuing
fetch one, then fetch two, then resolving fetch two and finally the stale
fetch one leaves the stale first question in the state, on a reachable
execution. -/
theorem stale_fetch_overwrites :
    (fetchSuccess qFirst (fetchSuccess qSecond
      (fetchNewQuestionStart (fetchNewQuestionStart sReady)))).question = some qFirst ∧
    qFirst ≠ qSecond ∧
    Reachable (fetchSuccess qFirst (fetchSuccess qSecond
      (fetchNewQuestionStart (fetchNewQuestionStart sReady)))) :=
  ⟨rfl, by decide,
    Reachable.next (Event.fetchOk qFirst)
      (Reachable.next (Event.fetchOk qSecond)
        (Reachable.next Event.fetchStart
          (Reachable.next Event.fetchStart reachable_sReady)))⟩

/-- C6 counterexample: a body with an empty prompt passes the validation,
a body whose four option entries are numbers — truthy but in no sense
non-empty text — is accepted as well, and a body whose options value is
JSON `null` is rejected through the thrown TypeError path rather than
through the validator's own malformed-response throw. -/
theorem lenient_validation_counterexample :
    rawEmptyPrompt.question = some (JsonPrim.str "") ∧
    validateResponse rawEmptyPrompt =
      ValidateOutcome.accepted
        ({ question := "", optionA := JsonPrim.str "3", optionB := JsonPrim.str "4"
           optionC := JsonPrim.str "5", optionD := JsonPrim.str "6"
           correctAnswer := AnswerKey.B } : CastQuestion) ∧
    validateResponse rawNumericOptions =
      ValidateOutcome.accepted
        ({ question := "2+2?", optionA := JsonPrim.num 1, optionB := JsonPrim.num 2
           optionC := JsonPrim.num 3, optionD := JsonPrim.num 4
           correctAnswer := AnswerKey.A } : CastQuestion) ∧
    validateResponse rawNullOptions = ValidateOutcome.nullOptions ∧
    ValidateOutcome.nullOptions ≠ ValidateOutcome.badShape :=
  ⟨rfl, by decide, by decide, rfl, by decide⟩

/-- C6 (amended): the validation accepts a parsed object body exactly when
the prompt is a string — empty allowed — the options value is an object
(or array) whose four entries `A`–`D` are JS-truthy JSON values — any
truthy value, not only non-empty strings — and `correctAnswer` is one of
the four key strings; every other object body is rejected: with the
unexpected-format failure when the shape check itself fails, and through
a thrown TypeError when the options value is `null` (the typeof test
passes and the property read throws). -/
theorem validation_characterization :
    (∀ d : RawData,
      (∃ q : CastQuestion, validateResponse d = ValidateOutcome.accepted q) ↔
        ((∃ s : String, d.question = some (JsonPrim.str s)) ∧
         (∃ A B C D : Option JsonPrim, d.options = some (OptionsShape.objv A B C D) ∧
           jsTruthy A = true ∧ jsTruthy B = true ∧
           jsTruthy C = true ∧ jsTruthy D = true) ∧
         (d.correctAnswer = some (JsonPrim.str "A") ∨
          d.correctAnswer = some (JsonPrim.str "B") ∨
          d.correctAnswer = some (JsonPrim.str "C") ∨
          d.correctAnswer = some (JsonPrim.str "D")))) ∧
    (∀ d : RawData, (∃ s : String, d.question = some (JsonPrim.str s)) →
      d.options = some OptionsShape.nullv →
      validateResponse d = ValidateOutcome.nullOptions) ∧
    (∀ r : TransportResponse, r.ok = true →
      validateResponse r.body = ValidateOutcome.badShape →
      generateTriviaQuestion r =
        Except.error "Could not load question. The API returned data in an unexpected format.") ∧
    (∀ (r : TransportResponse) (q : CastQuestion), r.ok = true →
      validateResponse r.body = ValidateOutcome.accepted q →
      generateTriviaQuestion r = Except.ok q) ∧
    (∀ r : TransportResponse, r.ok = true →
      (∀ q : CastQuestion, validateResponse r.body ≠ ValidateOutcome.accepted q) →
      ∃ msg : String, generateTriviaQuestion r = Except.error msg) := by
  refine ⟨?_, ?_, ?_, ?_, ?_⟩
  · intro d
    obtain ⟨q, o, ca⟩ := d
    cases q with
    | none => simp [validateResponse]
    | some qv =>
      cases qv with
      | null => simp [validateResponse]
      | bool b => simp [validateResponse]
      | num qn => simp [validateResponse]
      | arrv => simp [validateResponse]
      | objv => simp [validateResponse]
      | str qs =>
        cases o with
        | none => simp [validateResponse]
        | some shape =>
          cases shape with
          | nullv => simp [validateResponse]
          | prim v => simp [validateResponse]
          | objv A B C D =>
            by_cases ht : (jsTruthy A && jsTruthy B && jsTruthy C && jsTruthy D) = true
            · have ht4 := ht
              rw [Bool.and_eq_true, Bool.and_eq_true, Bool.and_eq_true] at ht4
              obtain ⟨⟨⟨hA, hB⟩, hC⟩, hD⟩ := ht4
              cases ca with
              | none => simp [validateResponse, hA, hB, hC, hD]
              | some cv =>
                cases cv with
                | null => simp [validateResponse, hA, hB, hC, hD]
                | bool b => simp [validateResponse, hA, hB, hC, hD]
                | num qn => simp [validateResponse, hA, hB, hC, hD]
                | arrv => simp [validateResponse, hA, hB, hC, hD]
                | objv => simp [validateResponse, hA, hB, hC, hD]
                | str c =>
                  simp [validateResponse, hA, hB, hC, hD]
                  rw [← keyOfString_isSome c]
                  cases keyOfString c with
                  | none => simp_all
                  | some k =>
                    simp_all
                    exact ⟨A, B, C, D, ⟨rfl, rfl, rfl, rfl⟩, hA, hB, hC, hD⟩
            · simp only [validateResponse]
              rw [if_neg ht]
              constructor
              · intro h
                obtain ⟨qc, hqc⟩ := h
                exact absurd hqc (by simp)
              · intro hcon
                exfalso
                obtain ⟨-, ⟨A2, B2, C2, D2, hopts2, hA, hB, hC, hD⟩, -⟩ := hcon
                obtain ⟨rfl, rfl, rfl, rfl⟩ :=
                  OptionsShape.objv.inj (Option.some.inj hopts2)
                exact ht (by simp [hA, hB, hC, hD])
  · intro d hq hnull
    obtain ⟨s, hs⟩ := hq
    obtain ⟨q, o, ca⟩ := d
    simp only at hs hnull
    subst hs
    subst hnull
    simp [validateResponse]
  · intro r hok hbad
    simp [generateTriviaQuestion, hok, hbad]
  · intro r q hok hacc
    simp [generateTriviaQuestion, hok, hacc]
  · intro r hok hrej
    cases h : validateResponse r.body with
    | accepted q => exact absurd h (hrej q)
    | badShape =>
      exact ⟨"Could not load question. The API returned data in an unexpected format.",
        by simp [generateTriviaQuestion, hok, h]⟩
    | nullOptions =>
      exact ⟨"Could not load question. " ++ nullOptionsErrorMessage,
        by simp [generateTriviaQuestion, hok, h]⟩

/-- C6 witness: the numeric-options body is accepted, the null-options
body takes the TypeError path, the body lacking the options key yields
the unexpected-format failure, and the null-options response is rejected
with some failure message. -/
theorem validation_characterization_witness :
    (∃ q : CastQuestion, validateResponse rawNumericOptions = ValidateOutcome.accepted q) ∧
    validateResponse rawNullOptions = ValidateOutcome.nullOptions ∧
    generateTriviaQuestion rBadShape =
      Except.error "Could not load question. The API returned data in an unexpected format." ∧
    (∃ msg : String,
      generateTriviaQuestion
        ({ ok := true, status := 200, errorField := none, body := rawNullOptions } :
          TransportResponse) = Except.error msg) := by
  refine ⟨?_, ?_, ?_, ?_⟩
  · exact (validation_characterization.1 rawNumericOptions).mpr
      ⟨⟨"2+2?", rfl⟩,
        ⟨some (JsonPrim.num 1), some (JsonPrim.num 2), some (JsonPrim.num 3),
          some (JsonPrim.num 4), rfl, by decide, by decide, by decide, by decide⟩,
        Or.inl rfl⟩
  · exact validation_characterization.2.1 rawNullOptions ⟨"x", rfl⟩ rfl
  · exact validation_characterization.2.2.1 rBadShape rfl rfl
  · exact validation_characterization.2.2.2.2
      { ok := true, status := 200, errorField := none, body := rawNullOptions } rfl
      (by
        intro q h
        rw [show validateResponse
            ({ ok := true, status := 200, errorField := none, body := rawNullOptions } :
              TransportResponse).body = ValidateOutcome.nullOptions from rfl] at h
        exact ValidateOutcome.noConfusion h)

/-- C7 counterexample: for status 500 with `{error:"rate limited"}` the
client fails with `Could not load question. rate limited`, not with
`rate limited`, and the controller's failure handler shows the fixed
message `Failed to generate a new question. Please try again.` — so the
UI never shows the bare server message. -/
theorem rate_limited_message_counterexample :
    generateTriviaQuestion r500 =
      Except.error "Could not load question. rate limited" ∧
    "Could not load question. rate limited" ≠ "rate limited" ∧
    (fetchFailure (fetchNewQuestionStart sReady)).error =
      some "Failed to generate a new question. Please try again." ∧
    (fetchFailure (fetchNewQuestionStart sReady)).error ≠ some "rate limited" :=
  ⟨rfl, by decide, rfl, by decide⟩

/-- C7 (amended): on a non-success transport response the client fails
with `Could not load question. ` prefixed to the server-supplied error
message when present and non-empty, else to a message synthesized from
the status; the controller then stores the fixed retry message and keeps
difficulty and category unchanged, so the retry control re-issues the
identical request. -/
theorem error_message_synthesis :
    (∀ r : TransportResponse, r.ok = false →
      generateTriviaQuestion r =
        Except.error ("Could not load question. " ++ serverMessage r)) ∧
    (∀ (r : TransportResponse) (msg : String),
      r.errorField = some msg → msg ≠ "" → serverMessage r = msg) ∧
    (∀ r : TransportResponse, r.errorField = none →
      serverMessage r = "Server responded with status " ++ toString r.status) ∧
    (∀ s : AppState,
      (fetchFailure s).error =
        some "Failed to generate a new question. Please try again." ∧
      (fetchFailure s).difficulty = s.difficulty ∧
      (fetchFailure s).category = s.category) := by
  refine ⟨?_, ?_, ?_, fun s => ⟨rfl, rfl, rfl⟩⟩
  · intro r h
    simp [generateTriviaQuestion, h]
  · intro r msg h hne
    simp [serverMessage, h, hne]
  · intro r h
    simp [serverMessage, h]

/-- C7 witness: the 500 `rate limited` response produces the prefixed
message, and the failure handler keeps the ready state's difficulty. -/
theorem error_message_synthesis_witness :
    generateTriviaQuestion r500 =
      Except.error ("Could not load question. " ++ serverMessage r500) ∧
    serverMessage r500 = "rate limited" ∧
    (fetchFailure sReady).difficulty = sReady.difficulty :=
  ⟨error_message_synthesis.1 r500 rfl,
    error_message_synthesis.2.1 r500 "rate limited" rfl (by decide),
    (error_message_synthesis.2.2.2 sReady).2.1⟩

/-- C9: a GET request whose URL contains `/api/` is answered with a direct
network fetch — no cache lookup, no cache store; conversely any cache
lookup or store, and any cache-serving or cache-filling decision, happens
only for a GET request whose URL does not contain `/api/`. -/
theorem api_requests_bypass_cache :
    (∀ (url : String) (cacheHit : Bool) (st : Nat), urlHasApi url = true →
      handleFetch "GET" url cacheHit st = SWDecision.networkOnly ∧
      cacheLookup "GET" url = false ∧
      cacheStore "GET" url cacheHit st = false) ∧
    (∀ (method url : String) (cacheHit : Bool) (st : Nat),
      cacheLookup method url = true ∨ cacheStore method url cacheHit st = true →
      method = "GET" ∧ urlHasApi url = false) ∧
    (∀ (method url : String) (cacheHit : Bool) (st : Nat),
      handleFetch method url cacheHit st = SWDecision.serveFromCache ∨
        handleFetch method url cacheHit st = SWDecision.networkThenCache →
      method = "GET" ∧ urlHasApi url = false) := by
  refine ⟨?_, ?_, ?_⟩
  · intro url ch st h
    refine ⟨?_, ?_, ?_⟩
    · simp [handleFetch, h]
    · simp [cacheLookup, h]
    · simp [cacheStore, cacheLookup, h]
  · intro method url ch st h
    rcases h with h | h
    · unfold cacheLookup at h
      rw [Bool.and_eq_true] at h
      exact ⟨by simpa using h.1, by simpa using h.2⟩
    · unfold cacheStore cacheLookup at h
      rw [Bool.and_eq_true, Bool.and_eq_true, Bool.and_eq_true] at h
      exact ⟨by simpa using h.1.1.1, by simpa using h.1.1.2⟩
  · intro method url ch st h
    unfold handleFetch at h
    split_ifs at h <;> simp_all
/-- C9 witness: the trivia API URL bypasses the cache while a shell asset
GET is a cache candidate. -/
theorem api_requests_bypass_cache_witness :
    handleFetch "GET" "/api/generate-trivia" false 200 = SWDecision.networkOnly ∧
    cacheStore "GET" "/api/generate-trivia" false 200 = false ∧
    urlHasApi "/index.html" = false :=
  ⟨(api_requests_bypass_cache.1 "/api/generate-trivia" false 200 (by rfl)).1,
    (api_requests_bypass_cache.1 "/api/generate-trivia" false 200 (by rfl)).2.2,
    (api_requests_bypass_cache.2.1 "GET" "/index.html" true 200 (Or.inl (by rfl))).2⟩

end TriviaQuiz
